import Mathlib

/-!
Verification of the enrichment and filtering pipeline of the salary
dashboard (src/app.py). The pipeline is embedded shallowly: each Python
helper becomes a Lean function over lists and strings, table rows become
structures, and the pandas operations used (dict map, pd.cut binning,
boolean-mask filtering) become explicit total functions.
-/

namespace DSSalaries

/-- Python str.lower on the character data of a string (the titles in the
data are basic latin, where Char.toLower agrees with Python lower). -/
def pyLower (s : String) : String := ⟨s.data.map Char.toLower⟩

/-- Character-list version of a leading-match test, used to embed the
Python substring operator. -/
def leadMatch : List Char → List Char → Bool
  | [], _ => true
  | _ :: _, [] => false
  | a :: as, b :: bs => a == b && leadMatch as bs

/-- Contiguous-substring test on character lists. -/
def containsSub (needle : List Char) : List Char → Bool
  | [] => leadMatch needle []
  | h :: t => leadMatch needle (h :: t) || containsSub needle t

/-- Embedding of the Python expression `needle in hay` for strings. -/
def pyIn (needle hay : String) : Bool := containsSub needle.data hay.data

/-- Embedding of categorize_job (src/app.py lines 72-91): lower-case the
title, then run an ordered chain of substring tests, first match wins. -/
def categorizeJob (title : String) : String :=
  let t := pyLower title
  if pyIn "data scientist" t then "Data Scientist"
  else if pyIn "data engineer" t then "Data Engineer"
  else if pyIn "data analyst" t then "Data Analyst"
  else if pyIn "machine learning" t || pyIn "ml" t then "Machine Learning Engineer"
  else if pyIn "research" t || pyIn "scientist" t then "Research Scientist"
  else if pyIn "analytics" t then "Analytics Engineer"
  else if pyIn "architect" t then "Data Architect"
  else if pyIn "manager" t || pyIn "lead" t || pyIn "director" t || pyIn "head" t then "Management"
  else "Other"

/-- The americas list of get_region (src/app.py line 51). -/
def americas : List String := ["US", "CA", "MX", "BR", "CO"]

/-- The europe list of get_region (src/app.py line 52). -/
def europe : List String := ["GB", "DE", "ES", "FR", "NL", "PT", "CH", "IE", "AT", "SI", "HR"]

/-- The asia list of get_region (src/app.py line 53). -/
def asia : List String := ["IN", "SG", "JP", "HK", "IL", "AE", "PK", "TH"]

/-- The oceania list of get_region (src/app.py line 54). -/
def oceania : List String := ["AU", "NZ"]

/-- The africa list of get_region (src/app.py line 55). -/
def africa : List String := ["NG", "KE", "GH"]

/-- Embedding of get_region (src/app.py lines 50-68): membership chain
over the five hardcoded country-code lists, default Other. -/
def getRegion (c : String) : String :=
  if c ∈ americas then "Americas"
  else if c ∈ europe then "Europe"
  else if c ∈ asia then "Asia"
  else if c ∈ oceania then "Oceania"
  else if c ∈ africa then "Africa"
  else "Other"

/-- Embedding of the pd.cut call (src/app.py lines 46-48) with bins
[-1, 0, 50, 100] and right-closed intervals: a value lands in bin
(lo, hi] and gets that bin label; values outside every bin become
missing (NaN), modelled as none. -/
def remoteWorkType (r : Int) : Option String :=
  if -1 < r ∧ r ≤ 0 then some "On-site"
  else if 0 < r ∧ r ≤ 50 then some "Hybrid"
  else if 50 < r ∧ r ≤ 100 then some "Full-remote"
  else none

/-- The exp_level_map dict (src/app.py lines 23-28). -/
def expLevelMap : List (String × String) :=
  [("EN", "Entry-level"), ("MI", "Mid-level"), ("SE", "Senior-level"), ("EX", "Executive-level")]

/-- The emp_type_map dict (src/app.py lines 31-36). -/
def empTypeMap : List (String × String) :=
  [("FT", "Full-time"), ("PT", "Part-time"), ("CT", "Contract"), ("FL", "Freelance")]

/-- The company_size_map dict (src/app.py lines 39-43). -/
def companySizeMap : List (String × String) :=
  [("S", "Small"), ("M", "Medium"), ("L", "Large")]

/-- Embedding of pandas Series.map with a dict: look the key up in the
association list; an unmapped key becomes missing (NaN), modelled as
none, and no error is raised. -/
def lookupMap (m : List (String × String)) (k : String) : Option String :=
  match m with
  | [] => none
  | (a, v) :: rest => if k = a then some v else lookupMap rest k

/-- One raw row of ds_salaries.csv, the input table of load_data. -/
structure RawRow where
  work_year : Int
  experience_level : String
  employment_type : String
  job_title : String
  salary : Int
  salary_currency : String
  salary_in_usd : Int
  employee_residence : String
  remote_ratio : Int
  company_location : String
  company_size : String
deriving DecidableEq

/-- One row of the enriched table produced by load_data: every original
column is still present (experience_level, employment_type and
company_size recoded in place, hence possibly missing), plus the three
derived columns. -/
structure EnrichedRow where
  work_year : Int
  experience_level : Option String
  employment_type : Option String
  job_title : String
  salary : Int
  salary_currency : String
  salary_in_usd : Int
  employee_residence : String
  remote_ratio : Int
  company_location : String
  company_size : Option String
  remote_work_type : Option String
  region : String
  job_category : String
deriving DecidableEq

/-- The per-row action of the transformation part of load_data
(src/app.py lines 19-95): recode the three coded columns, bin
remote_ratio, classify region and job category, keep everything else. -/
def enrichRow (r : RawRow) : EnrichedRow :=
  { work_year := r.work_year
    experience_level := lookupMap expLevelMap r.experience_level
    employment_type := lookupMap empTypeMap r.employment_type
    job_title := r.job_title
    salary := r.salary
    salary_currency := r.salary_currency
    salary_in_usd := r.salary_in_usd
    employee_residence := r.employee_residence
    remote_ratio := r.remote_ratio
    company_location := r.company_location
    company_size := lookupMap companySizeMap r.company_size
    remote_work_type := remoteWorkType r.remote_ratio
    region := getRegion r.company_location
    job_category := categorizeJob r.job_title }

/-- The Enrichment Transform: load_data applied to a table, row by row
(all the pandas column assignments are row-wise maps). -/
def loadData (df : List RawRow) : List EnrichedRow := df.map enrichRow

/-- The six allowed-value sets picked in the sidebar multiselects
(src/app.py lines 101-135), one per filter dimension. -/
structure Selection where
  years : List Int
  expLevels : List (Option String)
  jobCats : List String
  regions : List String
  companySizes : List (Option String)
  remoteTypes : List (Option String)

/-- The conjunctive row predicate of the boolean mask at src/app.py
lines 138-145: six isin membership tests combined with logical and. -/
def rowPass (s : Selection) (r : EnrichedRow) : Bool :=
  decide (r.work_year ∈ s.years) &&
  decide (r.experience_level ∈ s.expLevels) &&
  decide (r.job_category ∈ s.jobCats) &&
  decide (r.region ∈ s.regions) &&
  decide (r.company_size ∈ s.companySizes) &&
  decide (r.remote_work_type ∈ s.remoteTypes)

/-- Embedding of filtered_df (src/app.py lines 138-145): keep exactly
the rows passing all six membership tests, in order. -/
def filteredDf (s : Selection) (df : List EnrichedRow) : List EnrichedRow :=
  df.filter (rowPass s)

/-- The ordered (predicate, label) rule list of the job classification as
the spec words it: data scientist, data engineer, data analyst,
machine-learning-or-ml, research-or-scientist, analytics, architect,
manager-or-lead-or-director-or-head, evaluated in sequence on the
lower-cased title. -/
def jobRules : List ((String → Bool) × String) :=
  [(fun t => pyIn "data scientist" t, "Data Scientist"),
   (fun t => pyIn "data engineer" t, "Data Engineer"),
   (fun t => pyIn "data analyst" t, "Data Analyst"),
   (fun t => pyIn "machine learning" t || pyIn "ml" t, "Machine Learning Engineer"),
   (fun t => pyIn "research" t || pyIn "scientist" t, "Research Scientist"),
   (fun t => pyIn "analytics" t, "Analytics Engineer"),
   (fun t => pyIn "architect" t, "Data Architect"),
   (fun t => pyIn "manager" t || pyIn "lead" t || pyIn "director" t || pyIn "head" t, "Management")]

/-- First-match-wins evaluation of an ordered rule list, defaulting to
Other when no rule fires. -/
def firstMatch (t : String) : List ((String → Bool) × String) → String
  | [] => "Other"
  | (p, l) :: rest => if p t then l else firstMatch t rest

/-- The job classification as the spec describes it: lower-case, then
first-match-wins over the ordered rule list. -/
def jobCategorySpec (title : String) : String := firstMatch (pyLower title) jobRules

/-- Claim C1: for every job title, categorize_job equals the ordered
first-match-wins substring classification described by the spec, and in
particular the two named example titles classify as stated. -/
theorem categorizeJob_matches_spec :
    (∀ t, categorizeJob t = jobCategorySpec t) ∧
    categorizeJob "Machine Learning Research Scientist" = "Machine Learning Engineer" ∧
    categorizeJob "Senior Data Analyst" = "Data Analyst" :=
  ⟨fun _ => rfl, by decide, by decide⟩

/-- Claim C2: the remote_ratio buckets route 0 to On-site, (0, 50] to
Hybrid and (50, 100] to Full-remote. -/
theorem remoteWorkType_buckets (r : Int) :
    (r = 0 → remoteWorkType r = some "On-site") ∧
    (0 < r ∧ r ≤ 50 → remoteWorkType r = some "Hybrid") ∧
    (50 < r ∧ r ≤ 100 → remoteWorkType r = some "Full-remote") := by
  refine ⟨?_, ?_, ?_⟩
  · rintro rfl
    rfl
  · rintro ⟨h1, h2⟩
    unfold remoteWorkType
    rw [if_neg (by omega), if_pos ⟨h1, h2⟩]
  · rintro ⟨h1, h2⟩
    unfold remoteWorkType
    rw [if_neg (by omega), if_neg (by omega), if_pos ⟨h1, h2⟩]

/-- Witness for C2 at the three boundary inputs 0, 50 and 100. -/
theorem remoteWorkType_buckets_witness :
    remoteWorkType 0 = some "On-site" ∧
    remoteWorkType 50 = some "Hybrid" ∧
    remoteWorkType 100 = some "Full-remote" :=
  ⟨(remoteWorkType_buckets 0).1 rfl,
   (remoteWorkType_buckets 50).2.1 (by omega),
   (remoteWorkType_buckets 100).2.2 (by omega)⟩

/-- Counterexample to C4 as stated: at remote_ratio -5 (which is at most
0) the derived remote_work_type is missing, not On-site, because -5 falls
below the lowest bin edge -1 of pd.cut. -/
theorem remoteWorkType_neg_not_onsite :
    remoteWorkType (-5) = none ∧ remoteWorkType (-5) ≠ some "On-site" := by
  constructor
  · rfl
  · intro h
    exact Option.noConfusion h

/-- Claim C4 amended: the On-site bucket has lower edge -1, not minus
infinity: values r with -1 < r and r ≤ 0 map to On-site, while values
r ≤ -1 fall outside every bin and map to a missing value. -/
theorem remoteWorkType_first_bin (r : Int) :
    (-1 < r → r ≤ 0 → remoteWorkType r = some "On-site") ∧
    (r ≤ -1 → remoteWorkType r = none) := by
  constructor
  · intro h1 h2
    unfold remoteWorkType
    rw [if_pos ⟨h1, h2⟩]
  · intro h
    unfold remoteWorkType
    rw [if_neg (by omega), if_neg (by omega), if_neg (by omega)]

/-- Witness for the amended C4 at r = 0 and r = -5. -/
theorem remoteWorkType_first_bin_witness :
    remoteWorkType 0 = some "On-site" ∧ remoteWorkType (-5) = none :=
  ⟨(remoteWorkType_first_bin 0).1 (by omega) (by omega),
   (remoteWorkType_first_bin (-5)).2 (by omega)⟩

/-- Helper: get_region returns the name of the list containing the code
and Other when no list contains it. -/
theorem getRegion_bucket (c : String) :
    (c ∈ americas → getRegion c = "Americas") ∧
    (c ∈ europe → getRegion c = "Europe") ∧
    (c ∈ asia → getRegion c = "Asia") ∧
    (c ∈ oceania → getRegion c = "Oceania") ∧
    (c ∈ africa → getRegion c = "Africa") ∧
    (c ∉ americas → c ∉ europe → c ∉ asia → c ∉ oceania → c ∉ africa →
      getRegion c = "Other") := by
  refine ⟨?_, ?_, ?_, ?_, ?_, ?_⟩
  · intro h
    exact if_pos h
  · intro h
    unfold getRegion
    rw [if_neg ((by decide : ∀ x ∈ europe, x ∉ americas) c h), if_pos h]
  · intro h
    unfold getRegion
    rw [if_neg ((by decide : ∀ x ∈ asia, x ∉ americas) c h),
      if_neg ((by decide : ∀ x ∈ asia, x ∉ europe) c h), if_pos h]
  · intro h
    unfold getRegion
    rw [if_neg ((by decide : ∀ x ∈ oceania, x ∉ americas) c h),
      if_neg ((by decide : ∀ x ∈ oceania, x ∉ europe) c h),
      if_neg ((by decide : ∀ x ∈ oceania, x ∉ asia) c h), if_pos h]
  · intro h
    unfold getRegion
    rw [if_neg ((by decide : ∀ x ∈ africa, x ∉ americas) c h),
      if_neg ((by decide : ∀ x ∈ africa, x ∉ europe) c h),
      if_neg ((by decide : ∀ x ∈ africa, x ∉ asia) c h),
      if_neg ((by decide : ∀ x ∈ africa, x ∉ oceania) c h), if_pos h]
  · intro h1 h2 h3 h4 h5
    unfold getRegion
    rw [if_neg h1, if_neg h2, if_neg h3, if_neg h4, if_neg h5]

/-- Claim C6: get_region is exact-match lookup against the five
hardcoded lists, returning the name of the list containing the code and
Other when no list contains it. -/
theorem getRegion_lookup (c : String) :
    (c ∈ americas → getRegion c = "Americas") ∧
    (c ∈ europe → getRegion c = "Europe") ∧
    (c ∈ asia → getRegion c = "Asia") ∧
    (c ∈ oceania → getRegion c = "Oceania") ∧
    (c ∈ africa → getRegion c = "Africa") ∧
    (c ∉ americas → c ∉ europe → c ∉ asia → c ∉ oceania → c ∉ africa →
      getRegion c = "Other") :=
  getRegion_bucket c

/-- Witness for C6 at the codes US and BR (in the americas list) and ZZ
(in no list). -/
theorem getRegion_lookup_witness :
    getRegion "US" = "Americas" ∧ getRegion "BR" = "Americas" ∧ getRegion "ZZ" = "Other" :=
  ⟨(getRegion_lookup "US").1 (by decide),
   (getRegion_lookup "BR").1 (by decide),
   (getRegion_lookup "ZZ").2.2.2.2.2 (by decide) (by decide) (by decide) (by decide) (by decide)⟩

/-- Claim C7: an input code that is not a key of the corresponding fixed
lookup table maps to a missing value (none); lookupMap is total, so no
error is raised. -/
theorem unmapped_codes_become_missing (c : String) :
    (c ∉ ["EN", "MI", "SE", "EX"] → lookupMap expLevelMap c = none) ∧
    (c ∉ ["FT", "PT", "CT", "FL"] → lookupMap empTypeMap c = none) ∧
    (c ∉ ["S", "M", "L"] → lookupMap companySizeMap c = none) := by
  refine ⟨?_, ?_, ?_⟩ <;> intro h <;>
    simp only [List.mem_cons, List.not_mem_nil, or_false, not_or] at h <;>
    simp only [lookupMap, expLevelMap, empTypeMap, companySizeMap]
  · rw [if_neg h.1, if_neg h.2.1, if_neg h.2.2.1, if_neg h.2.2.2]
  · rw [if_neg h.1, if_neg h.2.1, if_neg h.2.2.1, if_neg h.2.2.2]
  · rw [if_neg h.1, if_neg h.2.1, if_neg h.2.2]

/-- Witness for C7 at the unmapped code XX for all three tables. -/
theorem unmapped_codes_become_missing_witness :
    lookupMap expLevelMap "XX" = none ∧
    lookupMap empTypeMap "XX" = none ∧
    lookupMap companySizeMap "XX" = none :=
  ⟨(unmapped_codes_become_missing "XX").1 (by decide),
   (unmapped_codes_become_missing "XX").2.1 (by decide),
   (unmapped_codes_become_missing "XX").2.2 (by decide)⟩

/-- The proposition that region label l is the bucket of code c in the
partition made of the five named lists plus the default Other bucket. -/
def regionLabel (c l : String) : Prop :=
  (l = "Americas" ∧ c ∈ americas) ∨
  (l = "Europe" ∧ c ∈ europe) ∨
  (l = "Asia" ∧ c ∈ asia) ∨
  (l = "Oceania" ∧ c ∈ oceania) ∨
  (l = "Africa" ∧ c ∈ africa) ∨
  (l = "Other" ∧ c ∉ americas ∧ c ∉ europe ∧ c ∉ asia ∧ c ∉ oceania ∧ c ∉ africa)

/-- Claim C8: the five hardcoded lists are pairwise disjoint, every code
belongs to the bucket get_region assigns it, and that bucket is unique,
so get_region assigns each code exactly one region label. -/
theorem region_partition :
    (∀ x ∈ americas, x ∉ europe ∧ x ∉ asia ∧ x ∉ oceania ∧ x ∉ africa) ∧
    (∀ x ∈ europe, x ∉ asia ∧ x ∉ oceania ∧ x ∉ africa) ∧
    (∀ x ∈ asia, x ∉ oceania ∧ x ∉ africa) ∧
    (∀ x ∈ oceania, x ∉ africa) ∧
    (∀ c, regionLabel c (getRegion c)) ∧
    (∀ c l, regionLabel c l → l = getRegion c) := by
  refine ⟨by decide, by decide, by decide, by decide, ?_, ?_⟩
  · intro c
    unfold getRegion regionLabel
    split_ifs with h1 h2 h3 h4 h5
    · exact Or.inl ⟨rfl, h1⟩
    · exact Or.inr (Or.inl ⟨rfl, h2⟩)
    · exact Or.inr (Or.inr (Or.inl ⟨rfl, h3⟩))
    · exact Or.inr (Or.inr (Or.inr (Or.inl ⟨rfl, h4⟩)))
    · exact Or.inr (Or.inr (Or.inr (Or.inr (Or.inl ⟨rfl, h5⟩))))
    · exact Or.inr (Or.inr (Or.inr (Or.inr (Or.inr ⟨rfl, h1, h2, h3, h4, h5⟩))))
  · intro c l h
    rcases h with ⟨rfl, h⟩ | ⟨rfl, h⟩ | ⟨rfl, h⟩ | ⟨rfl, h⟩ | ⟨rfl, h⟩ | ⟨rfl, h⟩
    · exact ((getRegion_bucket c).1 h).symm
    · exact ((getRegion_bucket c).2.1 h).symm
    · exact ((getRegion_bucket c).2.2.1 h).symm
    · exact ((getRegion_bucket c).2.2.2.1 h).symm
    · exact ((getRegion_bucket c).2.2.2.2.1 h).symm
    · exact ((getRegion_bucket c).2.2.2.2.2 h.1 h.2.1 h.2.2.1 h.2.2.2.1 h.2.2.2.2).symm

/-- Witness for C8: at the code US, the unique-label direction applied
to the Americas bucket. -/
theorem region_partition_witness : "Americas" = getRegion "US" :=
  region_partition.2.2.2.2.2 "US" "Americas" (Or.inl ⟨rfl, by decide⟩)

/-- Claim C3: the Filter Engine returns exactly the rows passing all six
membership tests, as a sublist of the input (original row order, rows
kept whole so all columns survive), with row count at most the input
count, and it returns the empty table, not an error, when any allowed
set is empty. -/
theorem filteredDf_correct (s : Selection) (df : List EnrichedRow) :
    List.Sublist (filteredDf s df) df ∧
    (∀ r, r ∈ filteredDf s df ↔ r ∈ df ∧ rowPass s r = true) ∧
    (filteredDf s df).length ≤ df.length ∧
    ((s.years = [] ∨ s.expLevels = [] ∨ s.jobCats = [] ∨ s.regions = [] ∨
      s.companySizes = [] ∨ s.remoteTypes = []) → filteredDf s df = []) := by
  refine ⟨List.filter_sublist df, fun r => List.mem_filter, List.length_filter_le _ df, ?_⟩
  intro h
  refine List.filter_eq_nil_iff.mpr fun r _ => ?_
  simp only [rowPass, Bool.and_eq_true, decide_eq_true_eq, not_and]
  rcases h with h | h | h | h | h | h <;> intro hy <;>
    simp_all [List.not_mem_nil]

/-- Witness for C3 at a one-row table and an empty year selection. -/
theorem filteredDf_correct_witness :
    filteredDf ⟨[], [some "Senior-level"], ["Data Scientist"], ["Americas"],
        [some "Medium"], [some "On-site"]⟩
      [⟨2023, some "Senior-level", some "Full-time", "Data Scientist", 100000, "USD",
        100000, "US", 0, "US", some "Medium", some "On-site", "Americas", "Data Scientist"⟩] = [] :=
  (filteredDf_correct _ _).2.2.2 (Or.inl rfl)

/-- Claim C9: filtering an already filtered table with the same
selection sets returns the same result. -/
theorem filteredDf_idempotent (s : Selection) (df : List EnrichedRow) :
    filteredDf s (filteredDf s df) = filteredDf s df := by
  unfold filteredDf
  induction df with
  | nil => rfl
  | cons a t ih =>
    cases h : rowPass s a <;> simp [List.filter_cons, h, ih]

/-- Claim C5: the Enrichment Transform preserves the row count, and at
every row index every original column is still present (the untouched
columns with their original values, the three coded columns recoded
through their lookup tables) together with the three derived columns. -/
theorem loadData_preserves (df : List RawRow) (i : Nat)
    (h1 : i < (loadData df).length) (h2 : i < df.length) :
    (loadData df).length = df.length ∧
    (loadData df)[i].work_year = df[i].work_year ∧
    (loadData df)[i].job_title = df[i].job_title ∧
    (loadData df)[i].salary = df[i].salary ∧
    (loadData df)[i].salary_currency = df[i].salary_currency ∧
    (loadData df)[i].salary_in_usd = df[i].salary_in_usd ∧
    (loadData df)[i].employee_residence = df[i].employee_residence ∧
    (loadData df)[i].remote_ratio = df[i].remote_ratio ∧
    (loadData df)[i].company_location = df[i].company_location ∧
    (loadData df)[i].experience_level = lookupMap expLevelMap df[i].experience_level ∧
    (loadData df)[i].employment_type = lookupMap empTypeMap df[i].employment_type ∧
    (loadData df)[i].company_size = lookupMap companySizeMap df[i].company_size ∧
    (loadData df)[i].remote_work_type = remoteWorkType df[i].remote_ratio ∧
    (loadData df)[i].region = getRegion df[i].company_location ∧
    (loadData df)[i].job_category = categorizeJob df[i].job_title := by
  simp [loadData, enrichRow]

/-- Witness for C5 at a concrete one-row table and index 0. -/
theorem loadData_preserves_witness :
    (loadData [⟨2023, "SE", "FT", "Data Scientist", 100000, "USD", 100000, "US", 0, "US",
      "M"⟩]).length = 1 :=
  (loadData_preserves [⟨2023, "SE", "FT", "Data Scientist", 100000, "USD", 100000, "US", 0,
    "US", "M"⟩] 0 (by decide) (by decide)).1

/-- Claim C10: any title whose lower-casing contains the substring ml
anywhere, and contains none of data scientist, data engineer or data
analyst, is classified Machine Learning Engineer: the ml rule is a raw
substring test with no word boundary. -/
theorem ml_raw_substring (t : String)
    (hml : pyIn "ml" (pyLower t) = true)
    (h1 : pyIn "data scientist" (pyLower t) = false)
    (h2 : pyIn "data engineer" (pyLower t) = false)
    (h3 : pyIn "data analyst" (pyLower t) = false) :
    categorizeJob t = "Machine Learning Engineer" := by
  simp [categorizeJob, h1, h2, h3, hml]

/-- Witness for C10 at the title Html Developer, whose ml occurrence is
inside the word html. -/
theorem ml_raw_substring_witness : categorizeJob "Html Developer" = "Machine Learning Engineer" :=
  ml_raw_substring "Html Developer" (by decide) (by decide) (by decide) (by decide)

end DSSalaries
